import Mathlib

/-!
Shallow embedding of `numpy/typing/tests/test_typing.py` and
`numpy/_typing/_extended_precision.py`.

Strings from the Python code are modelled as `List Char` (the fixture files and
checker output handled by the harness are ASCII).  Python functions are
translated into executable Lean definitions; functions that can raise return
`Option`/`Except` values whose `some`/`.error` constructors carry the rendered
exception or assertion message.
-/

namespace TypeTest

/-- Coerce a Lean string literal to the `List Char` representation used
throughout this development. -/
def chars (s : String) : List Char := s.data

/-- The left curly-brace character (written via its code point so that no brace
appears inside a string literal). -/
def lbrace : Char := Char.ofNat 123

/-- The right curly-brace character. -/
def rbrace : Char := Char.ofNat 125

/-- The single-quote character used by Python `repr` of a string. -/
def squote : Char := Char.ofNat 39

/-- Python `repr` of a string, restricted to strings without quotes or escapes
(the only shape reaching `!r` placeholders in the harness messages): the text
wrapped in single quotes. -/
def pyRepr (s : List Char) : List Char := squote :: (s ++ [squote])

/-- Python `needle in hay` on strings: substring containment. -/
def pyIn (needle hay : List Char) : Bool :=
  match hay with
  | [] => needle.isEmpty
  | _ :: t => needle.isPrefixOf hay || pyIn needle t

/-- Characters stripped by Python `str.strip()` (the ASCII whitespace set). -/
def pySpace (c : Char) : Bool :=
  c == ' ' || c == '\t' || c == '\n' || c == '\x0d' || c == '\x0b' || c == '\x0c'

/-- Python `str.strip()`: remove leading and trailing whitespace. -/
def pyStrip (s : List Char) : List Char :=
  ((s.dropWhile pySpace).reverse.dropWhile pySpace).reverse

/-- Split a character list at the first character satisfying no further
`p`-run: returns the maximal `p`-prefix and the remainder. -/
def takeRunRest (p : Char → Bool) : List Char → List Char × List Char
  | [] => ([], [])
  | c :: r =>
    if p c then
      let (a, b) := takeRunRest p r
      (c :: a, b)
    else ([], c :: r)

/-- Python `s.split(sep)` for a single-character separator. -/
def pySplitChar (sep : Char) : List Char → List (List Char)
  | [] => [[]]
  | c :: r =>
    let rest := pySplitChar sep r
    if c == sep then [] :: rest
    else
      match rest with
      | h :: t => (c :: h) :: t
      | [] => [[c]]

/-- Fuel-driven worker for `pySplitList`; the fuel (initially the length of
the string) bounds the number of separator hits and is always sufficient. -/
def pySplitListF (sep : List Char) : Nat → List Char → List (List Char)
  | _, [] => [[]]
  | 0, s => [s]
  | f + 1, c :: r =>
    if sep.isPrefixOf (c :: r) && !sep.isEmpty then
      [] :: pySplitListF sep f (r.drop (sep.length - 1))
    else
      match pySplitListF sep f r with
      | h :: t => (c :: h) :: t
      | [] => [[c]]

/-- Python `s.split(sep)` for a non-empty multi-character separator. -/
def pySplitList (sep : List Char) (s : List Char) : List (List Char) :=
  pySplitListF sep s.length s

/-- Python `s.partition(sep)` (first occurrence; `(s, "", "")` when absent). -/
def pyPartition (sep : List Char) : List Char → List Char × List Char × List Char
  | [] => ([], [], [])
  | c :: r =>
    if sep.isPrefixOf (c :: r) && !sep.isEmpty then
      ([], sep, (c :: r).drop sep.length)
    else
      let (a, b, d) := pyPartition sep r
      (c :: a, b, d)

/-- Decimal digits of a natural number (fuel-driven, matching Python `str`). -/
def natDigitsAux : Nat → Nat → List Char
  | 0, _ => []
  | f + 1, n =>
    if n < 10 then [Char.ofNat (48 + n)]
    else natDigitsAux f (n / 10) ++ [Char.ofNat (48 + n % 10)]

/-- Python `str(n)` for a natural number. -/
def natToChars (n : Nat) : List Char := natDigitsAux (n + 1) n

/-- Python `str(i)` for an integer. -/
def intToChars (i : Int) : List Char :=
  if i < 0 then '-' :: natToChars i.natAbs else natToChars i.toNat

/-- Numeric value of a non-empty digit string. -/
def natOfDigits (ds : List Char) : Nat :=
  ds.foldl (fun a c => a * 10 + (c.toNat - 48)) 0

/-- Python `int(s)` on a string, modelled for the forms the harness can meet:
optional surrounding whitespace, an optional sign, then decimal digits
(`None` models the `ValueError`). -/
def pyIntParse (s : List Char) : Option Int :=
  match pyStrip s with
  | '-' :: ds => if !ds.isEmpty && ds.all (·.isDigit) then some (-(natOfDigits ds : Int)) else none
  | '+' :: ds => if !ds.isEmpty && ds.all (·.isDigit) then some (natOfDigits ds : Int) else none
  | ds => if !ds.isEmpty && ds.all (·.isDigit) then some (natOfDigits ds : Int) else none

/-- Boolean membership in a list of strings (Python `x in [...]`). -/
def memL (k : List Char) : List (List Char) → Bool
  | [] => false
  | x :: t => x == k || memL k t

/-- Last-value-wins lookup in an association list; this is the membership and
`[]`/`get` semantics of a Python `dict` that was built by successive
`update`/assignment of the listed pairs in order. -/
def dictGet {α β : Type} [BEq α] : List (α × β) → α → Option β
  | [], _ => none
  | (k0, v0) :: t, k =>
    match dictGet t k with
    | some v => some v
    | none => if k0 == k then some v0 else none

/-! ## `_key_func` and `_strip_filename`

`os.path.splitdrive` is the identity-with-empty-drive on POSIX paths, which is
what the harness handles; both helpers reduce to splitting at the first `:`. -/

/-- Embedding of `_key_func`: the part of a checker output line before the
first `:` (the whole line when there is no `:`). -/
def keyFunc (s : List Char) : List Char :=
  (takeRunRest (fun c => !(c == ':')) s).1

/-- Embedding of `_strip_filename`: the part of a checker message after the
first `:` (`tail.split(":", 1)[-1]`, the whole message when there is no `:`). -/
def stripFilename (s : List Char) : List Char :=
  match takeRunRest (fun c => !(c == ':')) s with
  | (a, []) => a
  | (_, _ :: rest) => rest

/-! ## `strip_func` / `_STRIP_PATTERN`

`_STRIP_PATTERN = re.compile(r"(\w+\.)+(\w+)")` and
`_STRIP_PATTERN.sub(strip_func, s)` replaces every match of the pattern by its
second group, i.e. every module-qualified dotted name by its last component.
The scanner below reproduces `re.sub`'s left-to-right scan with the greedy
matching (including the one backtracking case, where `(\w+\.)+` has consumed a
final `\w+\.` but no `\w` follows and the final repetition is given back to
`(\w+)`, leaving the trailing dot unconsumed).  `\w` is modelled by its ASCII
subset, which covers the type strings the harness compares. -/

/-- A regex `\w` character (ASCII subset). -/
def isWordChar (c : Char) : Bool := c.isAlphanum || c == '_'

/-- Greedy parse of `(\w+\.)+` at the head of the input: the list of word runs
(each of which was followed by a consumed dot) and the rest.  Fuel-driven; the
initial fuel `s.length` is always sufficient as every step consumes at least
two characters. -/
def takeReps : Nat → List Char → List (List Char) × List Char
  | 0, s => ([], s)
  | f + 1, s =>
    let (w, r) := takeRunRest isWordChar s
    if w.isEmpty then ([], s)
    else
      match r with
      | '.' :: r2 =>
        let (gs, rest) := takeReps f r2
        (w :: gs, rest)
      | _ => ([], s)

/-- Total number of characters consumed by the repetitions of `takeReps`
(each word run plus its dot). -/
def repsLen : List (List Char) → Nat
  | [] => 0
  | w :: gs => w.length + 1 + repsLen gs

/-- Attempt to match `(\w+\.)+(\w+)` at the head of `s`.  On success, returns
the second group together with the number of characters the match consumed. -/
def tryMatch (s : List Char) : Option (List Char × Nat) :=
  match takeReps s.length s with
  | ([], _) => none
  | (g :: gs, rest) =>
    let (w, _) := takeRunRest isWordChar rest
    if !w.isEmpty then some (w, repsLen (g :: gs) + w.length)
    else
      match gs with
      | [] => none
      | _ :: _ => some ((g :: gs).getLastD [], repsLen (g :: gs) - 1)

/-- Fuel-driven worker of `stripModules`; every successful match consumes at
least one character, so fuel `s.length` is always sufficient. -/
def subScan : Nat → List Char → List Char
  | 0, s => s
  | f + 1, s =>
    match s with
    | [] => []
    | c :: rest =>
      match tryMatch (c :: rest) with
      | some (g2, n) => g2 ++ subScan f ((c :: rest).drop n)
      | none => c :: subScan f rest

/-- Embedding of `_STRIP_PATTERN.sub(strip_func, s)`: replace every maximal
module-qualified dotted name by its last component. -/
def stripModules (s : List Char) : List Char := subScan s.length s

/-! ## `_test_fail` and the `test_fail` per-line dispatch -/

/-- Rendering of `_FAIL_MSG1` (`"""Extra error at line {}\n\nExpression: {}\nExtra error: {!r}\n"""`). -/
def failMsg1R (lineno : Int) (expression error : List Char) : List Char :=
  chars "Extra error at line " ++ intToChars lineno ++
  chars "\n\nExpression: " ++ expression ++
  chars "\nExtra error: " ++ pyRepr error ++ chars "\n"

/-- Rendering of `_FAIL_MSG2` (`"""Error mismatch at line {}\n\nExpression: {}\nExpected error: {!r}\nObserved error: {!r}\n"""`). -/
def failMsg2R (lineno : Int) (expression expectedError error : List Char) : List Char :=
  chars "Error mismatch at line " ++ intToChars lineno ++
  chars "\n\nExpression: " ++ expression ++
  chars "\nExpected error: " ++ pyRepr expectedError ++
  chars "\nObserved error: " ++ pyRepr error ++ chars "\n"

/-- Embedding of `_test_fail`: `none` means the check passed; `some msg` means
an `AssertionError` carrying `msg` was raised.  The argument names follow the
source: `error` is the `# E:` marker text and `expectedError` is the
accumulated checker output for the line (`None` models the
`expected_error is None` branch). -/
def testFailCheck (expression error : List Char) (expectedError : Option (List Char))
    (lineno : Int) : Option (List Char) :=
  match expectedError with
  | none => some (failMsg1R lineno expression error)
  | some ee =>
    if !(pyIn error ee) then some (failMsg2R lineno expression ee error)
    else none

/-- Rendering of the `test_fail` message
`f"Unexpected mypy output at line {lineno}\n\n{errors[lineno]}"`. -/
def unexpectedOutputMsg (lineno : Int) (errs : List Char) : List Char :=
  chars "Unexpected mypy output at line " ++ intToChars lineno ++ chars "\n\n" ++ errs

/-- Outcome of the `test_fail` loop body for one fixture line. -/
inductive FailLineOutcome where
  /-- The line was skipped by the `continue` branch. -/
  | skip : FailLineOutcome
  /-- The line entered the `# E:` marker branch; `_test_fail` is then called
  on the carried expression and (unstripped) marker. -/
  | check (expression marker : List Char) : FailLineOutcome
  /-- `pytest.fail` with an "Unexpected mypy output" message. -/
  | unexpected (msg : List Char) : FailLineOutcome
deriving DecidableEq

/-- Whether a `FailLineOutcome` is the "Unexpected mypy output" test failure. -/
def isUnexpected : FailLineOutcome → Bool
  | .unexpected _ => true
  | _ => false

/-- Embedding of the `test_fail` loop body for one fixture line: `line` is the
line's text, `lineno` its 1-based number, `hasErr` whether `lineno in errors`,
and `errs` the accumulated checker output `errors[lineno]` (the empty string
when absent, per `defaultdict`). -/
def failLineStep (line : List Char) (lineno : Int) (errs : List Char)
    (hasErr : Bool) : FailLineOutcome :=
  if line.head? == some '#' then .skip
  else if !(pyIn (chars " E:") line) && !hasErr then .skip
  else if pyIn (chars "# E:") line then
    let (expression, _, marker) := pyPartition (chars "  # E: ") line
    .check expression marker
  else .unexpected (unexpectedOutputMsg lineno errs)

/-! ## `_test_reveal` -/

/-- Rendering of `_REVEAL_MSG` (`"""Reveal mismatch at line {}\n\nExpression: {}\nExpected reveal: {!r}\nObserved reveal: {!r}\n"""`).
Note that in the source the third format argument is `stripped_expected_reveal`
and the fourth is `stripped_reveal`. -/
def revealMsgR (lineno : Int) (expression strippedExpectedReveal strippedReveal : List Char) :
    List Char :=
  chars "Reveal mismatch at line " ++ intToChars lineno ++
  chars "\n\nExpression: " ++ expression ++
  chars "\nExpected reveal: " ++ pyRepr strippedExpectedReveal ++
  chars "\nObserved reveal: " ++ pyRepr strippedReveal ++ chars "\n"

/-- Embedding of `_test_reveal`: `none` means the check passed; `some msg`
means an `AssertionError` carrying `msg` was raised.  The argument names
follow the source: in the caller `test_reveal`, `reveal` receives the fixture's
substituted marker and `expectedReveal` receives the checker's output line. -/
def testRevealCheck (expression reveal expectedReveal : List Char) (lineno : Int) :
    Option (List Char) :=
  let strippedReveal := stripModules reveal
  let strippedExpectedReveal := stripModules expectedReveal
  if !(pyIn strippedReveal strippedExpectedReveal) then
    some (revealMsgR lineno expression strippedExpectedReveal strippedReveal)
  else none

/-! ## `run_mypy`: cache clearing, invocation outcome and stdout parsing -/

/-- Truthiness of `os.environ.get("NUMPY_TYPING_TEST_CLEAR_CACHE", True)`:
`True` when the variable is unset, otherwise `bool(<string value>)`, which is
`True` exactly when the string is non-empty. -/
def envTruthy : Option (List Char) → Bool
  | none => true
  | some s => !s.isEmpty

/-- Embedding of the cache-clearing condition in `run_mypy`:
`os.path.isdir(CACHE_DIR) and bool(os.environ.get("NUMPY_TYPING_TEST_CLEAR_CACHE", True))`. -/
def shouldClearCache (cacheDirExists : Bool) (env : Option (List Char)) : Bool :=
  cacheDirExists && envTruthy env

/-- Consecutive grouping of lines by `keyFunc`
(`itertools.groupby(stdout.split("\n"), key=_key_func)` with each group
materialised by `list(v)`). -/
def groupRuns : List (List Char) → List (List Char × List (List Char))
  | [] => []
  | x :: xs =>
    match groupRuns xs with
    | [] => [(keyFunc x, [x])]
    | (k, g) :: t =>
      if keyFunc x == k then (keyFunc x, x :: g) :: t
      else (keyFunc x, [x]) :: (k, g) :: t

/-- Embedding of the stdout parsing in `run_mypy`: remove every `*`, split
into lines, group consecutive lines by `keyFunc` and keep the groups with a
truthy (non-empty) key.  `OUTPUT_MYPY.update` assigns these pairs in order. -/
def parseMypyStdout (stdout : List Char) : List (List Char × List (List Char)) :=
  (groupRuns (pySplitChar '\n' (stdout.filter (fun c => !(c == '*'))))).filter
    (fun p => !p.1.isEmpty)

/-- Embedding of one directory iteration of `run_mypy`: `.error msg` models
`pytest.fail(msg)` (fatal for the whole session), `.ok entries` the pairs
assigned into `OUTPUT_MYPY`. -/
def runMypyDir (stdout stderr : List Char) (exitCode : Int) :
    Except (List Char) (List (List Char × List (List Char))) :=
  if !stderr.isEmpty then
    .error (chars "Unexpected mypy standard error\n\n" ++ stderr)
  else if !(exitCode == 0 || exitCode == 1) then
    .error (chars "Unexpected mypy exit code: " ++ intToChars exitCode ++
      chars "\n\n" ++ stdout)
  else .ok (parseMypyStdout stdout)

/-- Boolean success test for `Except`. -/
def exOk {ε α : Type} : Except ε α → Bool
  | .ok _ => true
  | .error _ => false

/-! ## `test_success` -/

/-- Embedding of `test_success` for one fixture path: `none` when the test
passes, `some msg` models `raise AssertionError(msg)`.  `outputMypy` is the
session mapping modelled as the association list of assigned pairs. -/
def testSuccessCheck (outputMypy : List (List Char × List (List Char)))
    (path : List Char) : Option (List Char) :=
  match dictGet outputMypy path with
  | some lines =>
    some (chars "Unexpected mypy output\n\n" ++
      List.intercalate (chars "\n") (lines.map stripFilename))
  | none => none

/-! ## The diagnostic-line patterns of `test_fail` and `test_reveal` -/

/-- Strip a literal head from a list, or fail. -/
def dropLit (lit s : List Char) : Option (List Char) :=
  if lit.isPrefixOf s then some (s.drop lit.length) else none

/-- Whether `rest` matches the regex tail `.+$`: after discarding one optional
final newline, the remainder is non-empty and newline-free. -/
def dotPlusEnd (rest : List Char) : Bool :=
  let r := match rest.getLast? with
    | some c => if c == '\n' then rest.dropLast else rest
    | none => rest
  !r.isEmpty && r.all (fun c => !(c == '\n'))

/-- Matcher for `re.match(r"(?P<lineno>\d+): (kind_1|...|kind_n): .+$", s)`:
digits, then `": "`, then one of the kinds, then `": "`, then `.+$`.  On
success returns the numeric value of the `lineno` group. -/
def matchDiagLine (kinds : List (List Char)) (s : List Char) : Option Nat :=
  let (ds, r1) := takeRunRest (·.isDigit) s
  if ds.isEmpty then none
  else
    match dropLit (chars ": ") r1 with
    | none => none
    | some r2 =>
      match kinds.findSome? (fun k => dropLit (k ++ chars ": ") r2) with
      | none => none
      | some rest => if dotPlusEnd rest then some (natOfDigits ds) else none

/-- The first line of a message (`msg.split("\n", 1)[0]`). -/
def firstLine (s : List Char) : List Char :=
  (takeRunRest (fun c => !(c == '\n')) s).1

/-- Embedding of the error-collection step of `test_fail` for one raw checker
output line: `.error msg` models `raise ValueError(msg)`; `.ok (lineno, e)`
is the line number and the stripped line appended to `errors[lineno]`. -/
def failLineParse (raw : List Char) : Except (List Char) (Nat × List Char) :=
  let e := firstLine (stripFilename raw)
  match matchDiagLine [chars "error", chars "note"] e with
  | none => .error (chars "Unexpected error line format: " ++ e)
  | some n => .ok (n, e)

/-- Outcome of the per-output-line work of `test_reveal` up to the marker
comparison. -/
inductive RevealLineOutcome where
  /-- `raise ValueError(msg)` for an unparseable line. -/
  | valueError (msg : List Char) : RevealLineOutcome
  /-- Failure of `assert "Revealed type is" in error_line`. -/
  | assertionError : RevealLineOutcome
  /-- The parsed 0-based line index (`int(match.group('lineno')) - 1`) and the
  stripped line, which proceed to the `_test_reveal` comparison. -/
  | proceed (lineno : Int) (errorLine : List Char) : RevealLineOutcome
deriving DecidableEq

/-- Embedding of the parsing part of the `test_reveal` loop body for one raw
checker output line. -/
def revealLineParse (raw : List Char) : RevealLineOutcome :=
  let e := stripFilename raw
  match matchDiagLine [chars "note"] e with
  | none => .valueError (chars "Unexpected reveal line format: " ++ e)
  | some n =>
    if !(pyIn (chars "Revealed type is") e) then .assertionError
    else .proceed ((n : Int) - 1) e

/-! ## `FORMAT_DICT`

The literal table built by `_construct_format_dict`.  Two entries depend on
values imported from `numpy.typing.mypy_plugin`, which is outside the sources
under verification: the `_NBitInt` entry (from `_PRECISION_DICT`) and the
`c_intp` entry (from `_C_INTP`); they are taken as parameters.  The
platform-dependent `_construct_ctypes_dict` pairs, which
`FORMAT_DICT.update(...)` assigns afterwards, are likewise a parameter
(`ctypesPairs`); `dictGet` gives the later assignments precedence, matching
`dict.update`. -/

/-- The literal pairs of `_construct_format_dict`, in source order. -/
def formatDictBase (nbitInt cIntp : List Char) : List (List Char × List Char) :=
  [ (chars "uint8", chars "numpy.uint8"),
    (chars "UInt8", chars "numpy.unsignedinteger[numpy._typing.8Bit]"),
    (chars "uint16", chars "numpy.uint16"),
    (chars "UInt16", chars "numpy.unsignedinteger[numpy._typing._16Bit]"),
    (chars "uint32", chars "numpy.uint32"),
    (chars "UInt32", chars "numpy.unsignedinteger[numpy._typing._32Bit]"),
    (chars "uint64", chars "numpy.uint64"),
    (chars "UInt64", chars "numpy.unsignedinteger[numpy._typing._64Bit]"),
    (chars "uint128", chars "numpy.uint128"),
    (chars "UInt128", chars "numpy.unsignedinteger[numpy._typing._128Bit]"),
    (chars "uint256", chars "numpy.uint256"),
    (chars "UInt256", chars "numpy.unsignedinteger[numpy._typing._256Bit]"),
    (chars "int8", chars "numpy.int8"),
    (chars "int16", chars "numpy.int16"),
    (chars "Int16", chars "numpy.signedinteger[numpy._typing._16Bit]"),
    (chars "int32", chars "numpy.int32"),
    (chars "Int32", chars "numpy.signedinteger[numpy._typing._32Bit]"),
    (chars "int64", chars "numpy.int64"),
    (chars "Int64", chars "numpy.signedinteger[numpy._typing._64Bit]"),
    (chars "int128", chars "numpy.int128"),
    (chars "Int128", chars "numpy.signedinteger[numpy._typing._128Bit]"),
    (chars "int256", chars "numpy.int256"),
    (chars "Int256", chars "numpy.signedinteger[numpy._typing._256Bit]"),
    (chars "float16", chars "numpy.float16"),
    (chars "Float16", chars "numpy.floating[numpy._typing._16Bit]"),
    (chars "float32", chars "numpy.float32"),
    (chars "Float32", chars "numpy.floating[numpy._typing._32Bit]"),
    (chars "float64", chars "numpy.float64"),
    (chars "Float64", chars "numpy.floating[numpy._typing._64Bit]"),
    (chars "float80", chars "numpy.float80"),
    (chars "float96", chars "numpy.float96"),
    (chars "float128", chars "numpy.float128"),
    (chars "Float128", chars "numpy.floating[numpy._typing._128Bit]"),
    (chars "float256", chars "numpy.float256"),
    (chars "complex64", chars "numpy.complex64"),
    (chars "complex128", chars "numpy.complex128"),
    (chars "complex160", chars "numpy.complex160"),
    (chars "complex192", chars "numpy.complex192"),
    (chars "complex256", chars "numpy.complex256"),
    (chars "complex512", chars "numpy.complex512"),
    (chars "ubyte", chars "numpy.ubyte"),
    (chars "ushort", chars "numpy.ushort"),
    (chars "uintc", chars "numpy.uintc"),
    (chars "uintp", chars "numpy.uintp"),
    (chars "uint", chars "numpy.uint"),
    (chars "ulonglong", chars "numpy.ulonglong"),
    (chars "byte", chars "numpy.byte"),
    (chars "short", chars "numpy.short"),
    (chars "intc", chars "numpy.intc"),
    (chars "intp", chars "numpy.intp"),
    (chars "int_", chars "numpy.int_"),
    (chars "longlong", chars "numpy.longlong"),
    (chars "half", chars "numpy.half"),
    (chars "single", chars "numpy.single"),
    (chars "double", chars "numpy.double"),
    (chars "longdouble", chars "numpy.longdouble"),
    (chars "csingle", chars "numpy.csingle"),
    (chars "cdouble", chars "numpy.cdouble"),
    (chars "clongdouble", chars "numpy.clongdouble"),
    (chars "_NBitInt", nbitInt),
    (chars "c_intp", chars "ctypes." ++ cIntp) ]

/-- The module-level `FORMAT_DICT` after `FORMAT_DICT.update(_construct_ctypes_dict())`. -/
def formatDict (nbitInt cIntp : List Char) (ctypesPairs : List (List Char × List Char)) :
    List (List Char × List Char) :=
  formatDictBase nbitInt cIntp ++ ctypesPairs

/-! ## `str.format` and `_parse_reveals`

`comments.format(**kwargs)` is modelled by `pyFmtGo`, an embedding of the
subset of Python's `str.format` parser that the harness inputs exercise:
literal text, `{{`/`}}` escapes and simple replacement fields `{name}`.
Fields carrying a conversion or format spec (`!`/`:`) or an attribute/index
access (`.`/`[`) are mapped to the `PyExc.unsupported` marker; Python would
resolve those further, and no theorem below rests on that branch. -/

/-- Exceptions that the modelled fragment of `str.format` can raise. -/
inductive PyExc where
  /-- `ValueError` with the given message. -/
  | valueError (msg : List Char) : PyExc
  /-- `KeyError` for a missing keyword argument. -/
  | keyError (key : List Char) : PyExc
  /-- `IndexError` from a positional (empty or all-digit) field with no
  positional arguments. -/
  | indexError : PyExc
  /-- Marker for field shapes outside the modelled fragment. -/
  | unsupported : PyExc
deriving DecidableEq

/-- Resolution of a replacement-field name against the keyword arguments. -/
def resolveField (kw : List Char → Option (List Char)) (field : List Char) :
    Except PyExc (List Char) :=
  if field.any (fun c => c == '!' || c == ':') then .error .unsupported
  else if field.isEmpty || field.all (·.isDigit) then .error .indexError
  else if field.any (fun c => c == '.' || c == '[') then .error .unsupported
  else
    match kw field with
    | some v => .ok v
    | none => .error (.keyError field)

/-- Message of `ValueError: Single '{' encountered in format string` (and its
right-brace twin), assembled without brace literals. -/
def singleBraceMsg (b : Char) : List Char :=
  chars "Single " ++ pyRepr [b] ++ chars " encountered in format string"

/-- The embedded `str.format` walk.  The first list argument is `none` in
literal text and `some acc` inside a replacement field with the (reversed)
field text read so far. -/
def pyFmtGo (kw : List Char → Option (List Char)) :
    Option (List Char) → List Char → Except PyExc (List Char)
  | none, [] => .ok []
  | none, c :: r =>
    if c == rbrace then
      match r with
      | c2 :: r2 =>
        if c2 == rbrace then (pyFmtGo kw none r2).map (rbrace :: ·)
        else .error (.valueError (singleBraceMsg rbrace))
      | [] => .error (.valueError (singleBraceMsg rbrace))
    else if c == lbrace then
      match r with
      | c2 :: r2 =>
        if c2 == lbrace then (pyFmtGo kw none r2).map (lbrace :: ·)
        else pyFmtGo kw (some []) (c2 :: r2)
      | [] => .error (.valueError (singleBraceMsg lbrace))
    else (pyFmtGo kw none r).map (c :: ·)
  | some _, [] => .error (.valueError (chars "expected " ++ pyRepr [rbrace] ++
      chars " before end of string"))
  | some acc, c :: r =>
    if c == rbrace then
      match resolveField kw acc.reverse with
      | .ok v => (pyFmtGo kw none r).map (v ++ ·)
      | .error e => .error e
    else if c == lbrace then
      .error (.valueError (chars "unexpected " ++ pyRepr [lbrace] ++ chars " in field name"))
    else pyFmtGo kw (some (c :: acc)) r

/-- The worker of `re.findall(r"\x7b(.*?)\x7d", comments)`: in literal text
(`none`) a left brace opens a lazily matched field; inside a field
(`some acc`) the first right brace closes it and emits the captured group. -/
def findallGo : Option (List Char) → List Char → List (List Char)
  | _, [] => []
  | none, c :: r => if c == lbrace then findallGo (some []) r else findallGo none r
  | some acc, c :: r =>
    if c == rbrace then acc.reverse :: findallGo none r
    else findallGo (some (c :: acc)) r

/-- Embedding of `re.findall(r"\x7b(.*?)\x7d", comments)`.  (The harness's
comment strings contain no newline — they are joined from newline-split
lines — so the `.`-excludes-newline rule of the regex never bites.) -/
def findallBraces (s : List Char) : List (List Char) := findallGo none s

/-- The fallback value `f"<UNRECOGNIZED FORMAT KEY {k!r}>"`. -/
def unrecognizedKey (k : List Char) : List Char :=
  chars "<UNRECOGNIZED FORMAT KEY " ++ pyRepr k ++ chars ">"

/-- `FORMAT_DICT.get(k, fallback)` over the modelled table. -/
def tblGetD (tbl : List (List Char × List Char)) (k : List Char) : List Char :=
  (dictGet tbl k).getD (unrecognizedKey k)

/-- The keyword-argument dictionary
`{k: FORMAT_DICT.get(k, ...) for k in key_set}` as a lookup function.
(`set(...)` only deduplicates `re.findall`'s matches, which leaves the built
mapping unchanged, so the key list is used directly.) -/
def buildKwargs (keys : List (List Char)) (tbl : List (List Char × List Char)) :
    List Char → Option (List Char) :=
  fun k => if memL k keys then some (tblGetD tbl k) else none

/-- The format-substitution step of `_parse_reveals`:
`comments.format(**kwargs)` with `kwargs` built from the `\x7b(.*?)\x7d`
matches in `comments`. -/
def formatComments (tbl : List (List Char × List Char)) (comments : List Char) :
    Except PyExc (List Char) :=
  pyFmtGo (buildKwargs (findallBraces comments) tbl) none comments

/-- The per-line partition of `_parse_reveals`: remove every `*`, split into
lines, partition each line at `"  # E: "`
(`np.char.partition(string.split("\n"), sep="  # E: ")` acts per line). -/
def lineParts (contents : List Char) : List (List Char × List Char × List Char) :=
  (pySplitChar '\n' (contents.filter (fun c => !(c == '*')))).map
    (pyPartition (chars "  # E: "))

/-- The `expression_array` of `_parse_reveals`. -/
def exprsOf (contents : List Char) : List (List Char) :=
  (lineParts contents).map (fun p => p.1)

/-- The `comments` string of `_parse_reveals`: the third partition components
joined with the literal separator `"/n"`. -/
def commentsOf (contents : List Char) : List Char :=
  List.intercalate (chars "/n") ((lineParts contents).map (fun p => p.2.2))

/-- Embedding of `_parse_reveals` over a fixture file's contents: `.error`
models an exception escaping `comments.format(**kwargs)`; `.ok` carries
`(expression_array, fmt_str.split("/n"))`. -/
def parseReveals (tbl : List (List Char × List Char)) (contents : List Char) :
    Except PyExc (List (List Char) × List (List Char)) :=
  match formatComments tbl (commentsOf contents) with
  | .error e => .error e
  | .ok fmt => .ok (exprsOf contents, pySplitList (chars "/n") fmt)

/-! ## `numpy/_typing/_extended_precision.py`

The module is purely declarative, so it is embedded as data: the type
expression a declaration names.  `localClass n` refers to another class
declared in the same module (used when a subclass's base is such a class
rather than a parameterized numpy abstract type). -/

/-- A type expression occurring in `_extended_precision.py`. -/
inductive PyBase where
  /-- `np.unsignedinteger[_<bits>Bit]` -/
  | unsignedinteger (bits : Nat) : PyBase
  /-- `np.signedinteger[_<bits>Bit]` -/
  | signedinteger (bits : Nat) : PyBase
  /-- `np.floating[_<bits>Bit]` -/
  | floating (bits : Nat) : PyBase
  /-- `np.complexfloating[_<rbits>Bit, _<ibits>Bit]` -/
  | complexfloating (rbits ibits : Nat) : PyBase
  /-- A class declared earlier in the module, by name. -/
  | localClass (name : List Char) : PyBase
deriving DecidableEq

/-- The type-parameterized aliases of `_extended_precision.py`
(`Uint128 = np.unsignedinteger[_128Bit]`, ...), in source order. -/
def extAliases : List (List Char × PyBase) :=
  [ (chars "Uint128", .unsignedinteger 128),
    (chars "Uint256", .unsignedinteger 256),
    (chars "Int128", .signedinteger 128),
    (chars "Int256", .signedinteger 256),
    (chars "Float80", .floating 80),
    (chars "Float96", .floating 96),
    (chars "Float128", .floating 128),
    (chars "Float256", .floating 256),
    (chars "Complex160", .complexfloating 80 80),
    (chars "Complex192", .complexfloating 96 96),
    (chars "Complex256", .complexfloating 128 128),
    (chars "Complex512", .complexfloating 256 256) ]

/-- The empty subclass declarations of `_extended_precision.py` with the base
each one is declared with (`class uint128(np.unsignedinteger[_128Bit])`,
`class uint256(uint128)`, ...), in source order. -/
def extSubclassBases : List (List Char × PyBase) :=
  [ (chars "uint128", .unsignedinteger 128),
    (chars "uint256", .localClass (chars "uint128")),
    (chars "int128", .signedinteger 128),
    (chars "int256", .localClass (chars "int128")),
    (chars "float80", .floating 80),
    (chars "float96", .floating 96),
    (chars "float128", .floating 128),
    (chars "float256", .floating 256),
    (chars "complex160", .complexfloating 80 80),
    (chars "complex192", .complexfloating 96 96),
    (chars "complex256", .complexfloating 128 128),
    (chars "complex512", .complexfloating 256 256) ]

/-- The twelve extended-precision kind names, with the name of the
corresponding alias. -/
def extKindAlias : List (List Char × List Char) :=
  [ (chars "uint128", chars "Uint128"),
    (chars "uint256", chars "Uint256"),
    (chars "int128", chars "Int128"),
    (chars "int256", chars "Int256"),
    (chars "float80", chars "Float80"),
    (chars "float96", chars "Float96"),
    (chars "float128", chars "Float128"),
    (chars "float256", chars "Float256"),
    (chars "complex160", chars "Complex160"),
    (chars "complex192", chars "Complex192"),
    (chars "complex256", chars "Complex256"),
    (chars "complex512", chars "Complex512") ]

/-- Modelled from the spec: the numpy abstract number type parameterized with
the bit width matching each extended-precision kind name — the base the claim
says every subclass declaration has. -/
def specExpectedBase : List Char → Option PyBase :=
  fun n => dictGet
    [ (chars "uint128", PyBase.unsignedinteger 128),
      (chars "uint256", PyBase.unsignedinteger 256),
      (chars "int128", PyBase.signedinteger 128),
      (chars "int256", PyBase.signedinteger 256),
      (chars "float80", PyBase.floating 80),
      (chars "float96", PyBase.floating 96),
      (chars "float128", PyBase.floating 128),
      (chars "float256", PyBase.floating 256),
      (chars "complex160", PyBase.complexfloating 80 80),
      (chars "complex192", PyBase.complexfloating 96 96),
      (chars "complex256", PyBase.complexfloating 128 128),
      (chars "complex512", PyBase.complexfloating 256 256) ] n

/-! ## `test_extended_precision` -/

/-- Embedding of `LINENO_MAPPING`. -/
def linenoMapping : List (Int × List Char) :=
  [ (3, chars "uint128"),
    (4, chars "uint256"),
    (6, chars "int128"),
    (7, chars "int256"),
    (9, chars "float80"),
    (10, chars "float96"),
    (11, chars "float128"),
    (12, chars "float256"),
    (14, chars "complex160"),
    (15, chars "complex192"),
    (16, chars "complex256"),
    (17, chars "complex512") ]

/-- Python sequence indexing `l[i]` with negative-index wrap-around; `none`
models `IndexError`. -/
def pyIndexGet {α : Type} (l : List α) (i : Int) : Option α :=
  if 0 ≤ i then l.get? i.toNat
  else
    let j : Int := (l.length : Int) + i
    if 0 ≤ j then l.get? j.toNat else none

/-- Python `str.rstrip("\n")`: remove all trailing newlines. -/
def rstripNl (s : List Char) : List Char :=
  (s.reverse.dropWhile (fun c => c == '\n')).reverse

/-- Outcome of the `test_extended_precision` loop body for one checker output
line. -/
inductive ExtOutcome where
  /-- `ValueError` (failed starred unpacking of `_msg.split(":")`, a failed
  `int(_lineno)`, or the explicit `raise ValueError` for an error-typed
  message on an extended-precision line). -/
  | valueError (msg : List Char) : ExtOutcome
  /-- `IndexError` from `expression_list[lineno - 1]`. -/
  | indexError : ExtOutcome
  /-- Failure of `assert msg_typ in ("error", "note")`. -/
  | assertionError : ExtOutcome
  /-- `KeyError` from the unguarded `LINENO_MAPPING[lineno]`. -/
  | keyError (lineno : Int) : ExtOutcome
  /-- `KeyError` from `FORMAT_DICT[LINENO_MAPPING[lineno]]`. -/
  | keyErrorFmt (name : List Char) : ExtOutcome
  /-- The `_test_reveal` comparison, with its result. -/
  | revealCheck (result : Option (List Char)) : ExtOutcome
  /-- The `_test_fail` comparison, with its result. -/
  | failCheck (result : Option (List Char)) : ExtOutcome
  /-- No branch applies (a note-typed message on a line whose kind is not in
  the extended-precision list): the loop body does nothing. -/
  | skip : ExtOutcome
deriving DecidableEq

/-- Embedding of the `test_extended_precision` loop body for one raw checker
output line `raw`.  `fmtTbl` stands for the module-level `FORMAT_DICT`,
`extList` for `_EXTENDED_PRECISION_LIST` (imported from
`numpy.typing.mypy_plugin`, outside the verified sources) and `exprs` for the
lines read from the fixture file. -/
def extStep (fmtTbl : List (List Char × List Char)) (extList : List (List Char))
    (exprs : List (List Char)) (raw : List Char) : ExtOutcome :=
  match (pySplitChar ':' raw).reverse with
  | msg0 :: typ0 :: linenoStr :: _ =>
    let msg := stripFilename msg0
    match pyIntParse linenoStr with
    | none => .valueError (chars "invalid literal for int() with base 10: " ++ pyRepr linenoStr)
    | some lineno =>
      match pyIndexGet exprs (lineno - 1) with
      | none => .indexError
      | some exprLine =>
        let expression := rstripNl exprLine
        let msgTyp := pyStrip typ0
        if !(memL msgTyp [chars "error", chars "note"]) then .assertionError
        else
          match dictGet linenoMapping lineno with
          | none => .keyError lineno
          | some name =>
            if memL name extList then
              if msgTyp == chars "error" then
                .valueError (chars "Unexpected reveal line format: " ++ intToChars lineno)
              else
                match dictGet fmtTbl name with
                | none => .keyErrorFmt name
                | some marker => .revealCheck (testRevealCheck expression marker msg lineno)
            else
              if msgTyp == chars "error" then
                .failCheck (testFailCheck expression (chars "Module has no attribute")
                  (some msg) lineno)
              else .skip
  | _ => .valueError (chars "not enough values to unpack")

/-! ## Well-formed comment shapes for the substitution theorem

A comment string is viewed as a sequence of tokens: brace-free literal runs
and brace-delimited format keys.  `renderToks` rebuilds the comment string,
`renderSubst` is the string after substituting every key. -/

/-- A token of a reveal-comment string. -/
inductive FTok where
  /-- A literal run of characters. -/
  | lit (s : List Char) : FTok
  /-- A format key, written in the comment as the key between braces. -/
  | key (k : List Char) : FTok

/-- Rebuild the comment string from its tokens. -/
def renderToks : List FTok → List Char
  | [] => []
  | FTok.lit s :: ts => s ++ renderToks ts
  | FTok.key k :: ts => lbrace :: (k ++ rbrace :: renderToks ts)

/-- The keys of a token list, in order. -/
def keysOf : List FTok → List (List Char)
  | [] => []
  | FTok.lit _ :: ts => keysOf ts
  | FTok.key k :: ts => k :: keysOf ts

/-- A character allowed in a plain format-key name: no brace, no attribute or
index access, no conversion or format-spec introducer, no newline. -/
def plainKeyChar (c : Char) : Bool :=
  !(c == lbrace) && !(c == rbrace) && !(c == '.') && !(c == '[') &&
  !(c == '!') && !(c == ':') && !(c == '\n')

/-- A plain format key: non-empty, not a positional (all-digit) reference,
and made of plain characters only. -/
def goodKey (k : List Char) : Bool :=
  !k.isEmpty && !(k.all (·.isDigit)) && k.all plainKeyChar

/-- A literal run that `str.format` copies verbatim: brace-free. -/
def goodLit (s : List Char) : Bool :=
  s.all (fun c => !(c == lbrace) && !(c == rbrace))

/-- Well-formedness of a token list. -/
def toksGood : List FTok → Bool
  | [] => true
  | FTok.lit s :: ts => goodLit s && toksGood ts
  | FTok.key k :: ts => goodKey k && toksGood ts

/-- The comment string after substituting every key through
`FORMAT_DICT.get(k, <UNRECOGNIZED ...>)`. -/
def renderSubst (tbl : List (List Char × List Char)) : List FTok → List Char
  | [] => []
  | FTok.lit s :: ts => s ++ renderSubst tbl ts
  | FTok.key k :: ts => tblGetD tbl k ++ renderSubst tbl ts

/-! ## Concrete evaluations checking the embedding against the Python semantics -/

example : pySplitChar '\n' (chars "a\nb\n") = [chars "a", chars "b", chars ""] := rfl
example : pySplitList (chars "/n") (chars "x/ny") = [chars "x", chars "y"] := rfl
example : pyPartition (chars "  # E: ") (chars "x: int  # E: msg") =
    (chars "x: int", chars "  # E: ", chars "msg") := rfl
example : pyStrip (chars "  ab ") = chars "ab" := rfl
example : natToChars 105 = chars "105" := rfl
example : pyIntParse (chars " 42") = some 42 := rfl
example : pyIn (chars "bc") (chars "abcd") = true := rfl
example : pyIn (chars "") (chars "") = true := rfl
example : keyFunc (chars "/d/f.py:1: error: x") = chars "/d/f.py" := rfl
example : stripFilename (chars "/d/f.py:1: error: x") = chars "1: error: x" := rfl
example : stripFilename (chars "no colon here") = chars "no colon here" := rfl
example : stripModules (chars "builtins.int") = chars "int" := rfl
example : stripModules (chars "numpy.floating[numpy._typing._64Bit]") =
    chars "floating[_64Bit]" := rfl
example : stripModules (chars "15: note: Revealed type is builtins.int") =
    chars "15: note: Revealed type is int" := rfl
example : stripModules (chars "a.b.") = chars "b." := rfl
example : stripModules (chars "a..b") = chars "a..b" := rfl
example : stripModules (chars "no dots here") = chars "no dots here" := rfl
example : stripModules (chars "a.b.c.d") = chars "d" := rfl
example : stripModules (chars "a.b..c.d") = chars "b..d" := rfl
example : stripModules (chars "a.b.c...") = chars "c..." := rfl
example : stripModules (chars "x.") = chars "x." := rfl
example : stripModules (chars ".y") = chars ".y" := rfl
example : stripModules (chars "_1.2_") = chars "2_" := rfl
example : failLineStep (chars "x: int = \x22a\x22  # E: incompatible") 3 (chars "") false =
    .check (chars "x: int = \x22a\x22") (chars "incompatible") := rfl
example : failLineStep (chars "y = f(x)") 4 (chars "4: error: boom\n") true =
    .unexpected (unexpectedOutputMsg 4 (chars "4: error: boom\n")) := rfl
example : failLineStep (chars "z = 1") 5 (chars "") false = .skip := rfl
example : testRevealCheck (chars "f(x)") (chars "numpy.int8")
    (chars "10: note: Revealed type is numpy.int8") 10 = none := rfl
example : parseMypyStdout (chars "/d/a.py:1: error: x\n/d/a.py:2: note: y\n/d/b.py:1: error: z\n") =
    [(chars "/d/a.py", [chars "/d/a.py:1: error: x", chars "/d/a.py:2: note: y"]),
     (chars "/d/b.py", [chars "/d/b.py:1: error: z"])] := rfl
example : runMypyDir (chars "out") (chars "boom") 0 =
    .error (chars "Unexpected mypy standard error\n\nboom") := rfl
example : exOk (runMypyDir (chars "") (chars "") 2) = false := rfl
example : testSuccessCheck [(chars "/d/a.py", [chars "/d/a.py:1: error: x"])] (chars "/d/a.py") =
    some (chars "Unexpected mypy output\n\n1: error: x") := rfl
example : testSuccessCheck [(chars "/d/a.py", [chars "/d/a.py:1: error: x"])] (chars "/d/b.py") =
    none := rfl
example : failLineParse (chars "/d/a.py:3: error: bad type") = .ok (3, chars "3: error: bad type") := rfl
example : failLineParse (chars "/d/a.py:3: warning: odd") =
    .error (chars "Unexpected error line format: 3: warning: odd") := rfl
example : revealLineParse (chars "/d/a.py:7: note: Revealed type is int") =
    .proceed 6 (chars "7: note: Revealed type is int") := rfl
example : revealLineParse (chars "/d/a.py:7: error: nope") =
    .valueError (chars "Unexpected reveal line format: 7: error: nope") := rfl
example : revealLineParse (chars "/d/a.py:7: note: something else") = .assertionError := rfl
example : dictGet (formatDict (chars "numpy.int64") (chars "c_long") []) (chars "Float64") =
    some (chars "numpy.floating[numpy._typing._64Bit]") := rfl
example : parseReveals (formatDict (chars "numpy.int64") (chars "c_long") [])
    (chars "f(1)  # E: \x7bfloat64\x7d\ng(2)  # E: \x7bnosuchkey\x7d") =
    .ok ([chars "f(1)", chars "g(2)"],
      [chars "numpy.float64", unrecognizedKey (chars "nosuchkey")]) := rfl
example : extStep [] [] (List.replicate 20 (chars "x")) (chars "/d/e.pyi:18: error: boom") =
    .keyError 18 := rfl
example : extStep [(chars "uint128", chars "numpy.uint128")] [chars "uint128"]
    (List.replicate 20 (chars "x"))
    (chars "/d/e.pyi:3: note: Revealed type is numpy.uint128") =
    .revealCheck none := rfl
example : extStep [] [] (List.replicate 20 (chars "x"))
    (chars "/d/e.pyi:3: error: Module has no attribute Q") =
    .failCheck none := rfl

lemma memL_of_mem {k : List Char} {l : List (List Char)} (h : k ∈ l) :
    memL k l = true := by
  induction l with
  | nil => cases h
  | cons x t ih =>
    rcases List.mem_cons.mp h with h1 | h2
    · simp [memL, h1]
    · simp [memL, ih h2]

lemma plain_facts {c : Char} (h : plainKeyChar c = true) :
    (c == lbrace) = false ∧ (c == rbrace) = false ∧ (c == '.') = false ∧
    (c == '[') = false ∧ (c == '!') = false ∧ (c == ':') = false := by
  simp only [plainKeyChar, Bool.and_eq_true, Bool.not_eq_true'] at h
  exact ⟨h.1.1.1.1.1.1, h.1.1.1.1.1.2, h.1.1.1.1.2, h.1.1.1.2, h.1.1.2, h.1.2⟩

lemma goodLit_facts {c : Char} {s : List Char} (h : goodLit (c :: s) = true) :
    (c == lbrace) = false ∧ (c == rbrace) = false ∧ goodLit s = true := by
  simp only [goodLit, List.all_cons, Bool.and_eq_true, Bool.not_eq_true'] at h
  exact ⟨h.1.1, h.1.2, by simp [goodLit, h.2]⟩

lemma findallGo_none_other {c : Char} (h : (c == lbrace) = false) (r : List Char) :
    findallGo none (c :: r) = findallGo none r := by
  simp [findallGo, h]

lemma findallGo_none_lb (r : List Char) :
    findallGo none (lbrace :: r) = findallGo (some []) r := by
  simp [findallGo]

lemma findallGo_some_other {c : Char} (h : (c == rbrace) = false)
    (acc r : List Char) : findallGo (some acc) (c :: r) = findallGo (some (c :: acc)) r := by
  simp [findallGo, h]

lemma findallGo_some_rb (acc r : List Char) :
    findallGo (some acc) (rbrace :: r) = acc.reverse :: findallGo none r := by
  simp [findallGo]

lemma findall_lit {s : List Char} (h : goodLit s = true) (t : List Char) :
    findallGo none (s ++ t) = findallGo none t := by
  induction s with
  | nil => rfl
  | cons c s' ih =>
    obtain ⟨hlb, _, hs⟩ := goodLit_facts h
    rw [List.cons_append, findallGo_none_other hlb, ih hs]

lemma findall_key {k : List Char} (h : k.all plainKeyChar = true) (t : List Char) :
    ∀ acc, findallGo (some acc) (k ++ rbrace :: t) =
      (acc.reverse ++ k) :: findallGo none t := by
  induction k with
  | nil =>
    intro acc
    rw [List.nil_append, findallGo_some_rb, List.append_nil]
  | cons c k' ih =>
    intro acc
    simp only [List.all_cons, Bool.and_eq_true] at h
    obtain ⟨_, hrb, _⟩ := plain_facts h.1
    rw [List.cons_append, findallGo_some_other hrb, ih h.2]
    simp

lemma findall_render {toks : List FTok} (h : toksGood toks = true) :
    findallGo none (renderToks toks) = keysOf toks := by
  induction toks with
  | nil => rfl
  | cons tk ts ih =>
    cases tk with
    | lit s =>
      simp only [toksGood, Bool.and_eq_true] at h
      simp only [renderToks, keysOf, findall_lit h.1, ih h.2]
    | key k =>
      simp only [toksGood, Bool.and_eq_true] at h
      have hk : k.all plainKeyChar = true := by
        simp only [goodKey, Bool.and_eq_true] at h
        exact h.1.2
      rw [renderToks, findallGo_none_lb, findall_key hk _ [], keysOf, ih h.2]
      simp

lemma pyFmtGo_none_cons (kw : List Char → Option (List Char)) (c : Char)
    (r : List Char) :
    pyFmtGo kw none (c :: r) =
      (if c == rbrace then
        (match r with
         | c2 :: r2 =>
           if c2 == rbrace then (pyFmtGo kw none r2).map (rbrace :: ·)
           else Except.error (.valueError (singleBraceMsg rbrace))
         | [] => Except.error (.valueError (singleBraceMsg rbrace)))
      else if c == lbrace then
        (match r with
         | c2 :: r2 =>
           if c2 == lbrace then (pyFmtGo kw none r2).map (lbrace :: ·)
           else pyFmtGo kw (some []) (c2 :: r2)
         | [] => Except.error (.valueError (singleBraceMsg lbrace)))
      else (pyFmtGo kw none r).map (c :: ·)) := by
  conv_lhs => unfold pyFmtGo

lemma pyFmtGo_some_cons (kw : List Char → Option (List Char)) (acc : List Char)
    (c : Char) (r : List Char) :
    pyFmtGo kw (some acc) (c :: r) =
      (if c == rbrace then
        (match resolveField kw acc.reverse with
         | .ok v => (pyFmtGo kw none r).map (v ++ ·)
         | .error e => .error e)
      else if c == lbrace then
        Except.error (.valueError (chars "unexpected " ++ pyRepr [lbrace] ++
          chars " in field name"))
      else pyFmtGo kw (some (c :: acc)) r) := by
  conv_lhs => unfold pyFmtGo

lemma pyFmtGo_none_plain {kw : List Char → Option (List Char)} {c : Char}
    (hlb : (c == lbrace) = false) (hrb : (c == rbrace) = false) (r : List Char) :
    pyFmtGo kw none (c :: r) = (pyFmtGo kw none r).map (c :: ·) := by
  rw [pyFmtGo_none_cons]
  simp [hlb, hrb]

lemma pyFmtGo_none_open {kw : List Char → Option (List Char)} {c2 : Char}
    (h : (c2 == lbrace) = false) (r2 : List Char) :
    pyFmtGo kw none (lbrace :: c2 :: r2) = pyFmtGo kw (some []) (c2 :: r2) := by
  rw [pyFmtGo_none_cons]
  simp [h, show (lbrace == rbrace) = false from rfl]

lemma pyFmtGo_some_plain {kw : List Char → Option (List Char)} {c : Char}
    (hlb : (c == lbrace) = false) (hrb : (c == rbrace) = false)
    (acc r : List Char) :
    pyFmtGo kw (some acc) (c :: r) = pyFmtGo kw (some (c :: acc)) r := by
  rw [pyFmtGo_some_cons]
  simp [hlb, hrb]

lemma pyFmtGo_some_close (kw : List Char → Option (List Char)) (acc r : List Char) :
    pyFmtGo kw (some acc) (rbrace :: r) =
      (match resolveField kw acc.reverse with
       | .ok v => (pyFmtGo kw none r).map (v ++ ·)
       | .error e => .error e) := by
  rw [pyFmtGo_some_cons]
  simp

lemma fmt_lit {kw : List Char → Option (List Char)} {s : List Char}
    (h : goodLit s = true) (t : List Char) :
    pyFmtGo kw none (s ++ t) = (pyFmtGo kw none t).map (s ++ ·) := by
  induction s with
  | nil =>
    cases hx : pyFmtGo kw none t <;> simp [Except.map, hx]
  | cons c s' ih =>
    obtain ⟨hlb, hrb, hs⟩ := goodLit_facts h
    rw [List.cons_append, pyFmtGo_none_plain hlb hrb, ih hs]
    cases hx : pyFmtGo kw none t <;> simp [Except.map, hx]

lemma fmt_field {kw : List Char → Option (List Char)} {k : List Char}
    (h : k.all plainKeyChar = true) (t : List Char) :
    ∀ acc, pyFmtGo kw (some acc) (k ++ rbrace :: t) =
      (match resolveField kw (acc.reverse ++ k) with
       | .ok v => (pyFmtGo kw none t).map (v ++ ·)
       | .error e => .error e) := by
  induction k with
  | nil =>
    intro acc
    rw [List.nil_append, pyFmtGo_some_close, List.append_nil]
  | cons c k' ih =>
    intro acc
    simp only [List.all_cons, Bool.and_eq_true] at h
    obtain ⟨hlb, hrb, _⟩ := plain_facts h.1
    rw [List.cons_append, pyFmtGo_some_plain hlb hrb, ih h.2]
    simp

lemma any_bang_colon_false {k : List Char} (h : k.all plainKeyChar = true) :
    k.any (fun c => c == '!' || c == ':') = false := by
  induction k with
  | nil => rfl
  | cons c k' ih =>
    simp only [List.all_cons, Bool.and_eq_true] at h
    obtain ⟨_, _, _, _, hbang, hcolon⟩ := plain_facts h.1
    simp [List.any_cons, hbang, hcolon, ih h.2]

lemma any_dot_bracket_false {k : List Char} (h : k.all plainKeyChar = true) :
    k.any (fun c => c == '.' || c == '[') = false := by
  induction k with
  | nil => rfl
  | cons c k' ih =>
    simp only [List.all_cons, Bool.and_eq_true] at h
    obtain ⟨_, _, hdot, hbr, _, _⟩ := plain_facts h.1
    simp [List.any_cons, hdot, hbr, ih h.2]

lemma resolve_good {kw : List Char → Option (List Char)} {k v : List Char}
    (hk : goodKey k = true) (hv : kw k = some v) : resolveField kw k = .ok v := by
  have hk' := hk
  simp only [goodKey, Bool.and_eq_true, Bool.not_eq_true'] at hk'
  simp [resolveField, any_bang_colon_false hk'.2, any_dot_bracket_false hk'.2,
    hk'.1.1, hk'.1.2, hv]

lemma fmt_render {kw : List Char → Option (List Char)}
    {tbl : List (List Char × List Char)} {toks : List FTok}
    (h : toksGood toks = true)
    (hkw : ∀ k ∈ keysOf toks, kw k = some (tblGetD tbl k)) :
    pyFmtGo kw none (renderToks toks) = .ok (renderSubst tbl toks) := by
  induction toks with
  | nil => rfl
  | cons tk ts ih =>
    cases tk with
    | lit s =>
      simp only [toksGood, Bool.and_eq_true] at h
      have hkw' : ∀ k ∈ keysOf ts, kw k = some (tblGetD tbl k) := by
        intro k hm; exact hkw k (by simp [keysOf, hm])
      rw [renderToks, fmt_lit h.1, ih h.2 hkw']
      simp [renderSubst, Except.map]
    | key k =>
      simp only [toksGood, Bool.and_eq_true] at h
      have hgk : goodKey k = true := h.1
      have hplain : k.all plainKeyChar = true := by
        simp only [goodKey, Bool.and_eq_true] at hgk
        exact hgk.2
      have hkk : kw k = some (tblGetD tbl k) := hkw k (by simp [keysOf])
      have hkw' : ∀ k2 ∈ keysOf ts, kw k2 = some (tblGetD tbl k2) := by
        intro k2 hm; exact hkw k2 (by simp [keysOf, hm])
      obtain ⟨kh, kt, rfl⟩ : ∃ kh kt, k = kh :: kt := by
        cases k with
        | nil => simp [goodKey] at hgk
        | cons a b => exact ⟨a, b, rfl⟩
      have hh := hplain
      simp only [List.all_cons, Bool.and_eq_true] at hh
      obtain ⟨hkhlb, _, _⟩ := plain_facts hh.1
      rw [renderToks, show lbrace :: (kh :: kt ++ rbrace :: renderToks ts) =
        lbrace :: kh :: (kt ++ rbrace :: renderToks ts) from rfl,
        pyFmtGo_none_open hkhlb,
        show kh :: (kt ++ rbrace :: renderToks ts) =
          (kh :: kt) ++ rbrace :: renderToks ts from rfl,
        fmt_field hplain _ []]
      simp only [List.reverse_nil, List.nil_append]
      rw [resolve_good hgk hkk, ih h.2 hkw']
      simp [renderSubst, Except.map]

/-- The main substitution lemma: on a well-formed comment string, the
`kwargs`-building and `str.format` pipeline of `_parse_reveals` terminates
normally and replaces exactly the brace-delimited keys. -/
lemma formatComments_render {tbl : List (List Char × List Char)} {toks : List FTok}
    (h : toksGood toks = true) :
    formatComments tbl (renderToks toks) = .ok (renderSubst tbl toks) := by
  unfold formatComments
  apply fmt_render h
  intro k hm
  unfold buildKwargs
  rw [show findallBraces (renderToks toks) = keysOf toks from findall_render h]
  simp [memL_of_mem hm]

lemma groupRuns_cons (x : List Char) (xs : List (List Char)) :
    groupRuns (x :: xs) =
      (match groupRuns xs with
       | [] => [(keyFunc x, [x])]
       | (k, g) :: t =>
         if keyFunc x == k then (keyFunc x, x :: g) :: t
         else (keyFunc x, [x]) :: (k, g) :: t) := by
  conv_lhs => unfold groupRuns

lemma groupRuns_sndNe : ∀ (ls : List (List Char)) p, p ∈ groupRuns ls → p.2 ≠ [] := by
  intro ls
  induction ls with
  | nil => intro p hp; cases hp
  | cons x xs ih =>
    intro p hp
    rw [groupRuns_cons] at hp
    revert hp
    cases hg : groupRuns xs with
    | nil =>
      intro hp
      rcases List.mem_singleton.mp hp with rfl
      simp
    | cons q t =>
      obtain ⟨k, g⟩ := q
      intro hp
      have hp' : p ∈ (if keyFunc x == k then (keyFunc x, x :: g) :: t
          else (keyFunc x, [x]) :: (k, g) :: t) := hp
      by_cases hk : (keyFunc x == k) = true
      · rw [if_pos hk] at hp'
        rcases List.mem_cons.mp hp' with rfl | hmem
        · simp
        · exact ih p (by rw [hg]; exact List.mem_cons_of_mem _ hmem)
      · rw [if_neg hk] at hp'
        rcases List.mem_cons.mp hp' with rfl | hmem
        · simp
        · exact ih p (by rw [hg]; exact hmem)

/-! ## The claims -/

/-- C1, counterexample.  The claim states that when `_test_reveal` passes, the
checker's reported note (the `expected_reveal` argument), after stripping, is
a substring of the expected reveal string (the `reveal` argument, the
substituted fixture marker), after stripping, and that an `AssertionError` is
raised when that containment fails.  At the concrete call below — marker
`"builtins.int"`, checker note `"15: note: Revealed type is builtins.int"` —
the check passes although the stripped note is not a substring of the stripped
marker, so the claim is false: the code tests containment in the opposite
direction. -/
theorem numpy_C1_counterexample :
    testRevealCheck (chars "x") (chars "builtins.int")
      (chars "15: note: Revealed type is builtins.int") 15 = none ∧
    pyIn (stripModules (chars "15: note: Revealed type is builtins.int"))
      (stripModules (chars "builtins.int")) = false := ⟨rfl, rfl⟩

/-- C1, amended.  `_test_reveal` passes if and only if the expected reveal
string (the substituted fixture marker), after stripping module-qualification
prefixes from both strings, is a substring of the checker's reported note; on
mismatch it raises an `AssertionError` rendering the expression and both
stripped strings (the observed note under the `Expected reveal:` label and the
marker under the `Observed reveal:` label). -/
theorem numpy_C1_amended (expression reveal expectedReveal : List Char) (lineno : Int) :
    (testRevealCheck expression reveal expectedReveal lineno = none ↔
      pyIn (stripModules reveal) (stripModules expectedReveal) = true) ∧
    (pyIn (stripModules reveal) (stripModules expectedReveal) = false →
      testRevealCheck expression reveal expectedReveal lineno =
        some (revealMsgR lineno expression (stripModules expectedReveal)
          (stripModules reveal))) := by
  unfold testRevealCheck
  constructor
  · cases h : pyIn (stripModules reveal) (stripModules expectedReveal) <;> simp [h]
  · intro h
    simp [h]

/-- C1, witness instantiating `numpy_C1_amended` at a concrete passing call
and a concrete failing call. -/
theorem numpy_C1_witness :
    testRevealCheck (chars "f(x)") (chars "numpy.int8")
      (chars "10: note: Revealed type is numpy.int8") 10 = none ∧
    testRevealCheck (chars "g(x)") (chars "numpy.int16")
      (chars "11: note: Revealed type is numpy.int8") 11 =
      some (revealMsgR 11 (chars "g(x)")
        (stripModules (chars "11: note: Revealed type is numpy.int8"))
        (stripModules (chars "numpy.int16"))) :=
  ⟨(numpy_C1_amended (chars "f(x)") (chars "numpy.int8")
      (chars "10: note: Revealed type is numpy.int8") 10).1.mpr (by decide),
   (numpy_C1_amended (chars "g(x)") (chars "numpy.int16")
      (chars "11: note: Revealed type is numpy.int8") 11).2 (by decide)⟩

/-- C2, counterexample.  The claim states that a checker-reported error on a
line without a `# E:` marker produces the "unexpected mypy output" failure for
any line content, including lines beginning with `#`.  At the concrete line
`"# comment line"` with a reported error, the loop body instead `continue`s:
`line.startswith('#')` is tested before the error set is consulted. -/
theorem numpy_C2_counterexample :
    failLineStep (chars "# comment line") 4 (chars "4: error: boom\n") true =
      FailLineOutcome.skip ∧
    isUnexpected (failLineStep (chars "# comment line") 4
      (chars "4: error: boom\n") true) = false := ⟨rfl, rfl⟩

/-- C2, amended.  For a fixture line that does not begin with `#`: if the
checker reported an error for the line and the line does not contain a `# E:`
marker, the loop body fails with the "Unexpected mypy output" report carrying
the accumulated checker text.  (Lines beginning with `#` are always skipped.) -/
theorem numpy_C2_amended (line : List Char) (lineno : Int) (errs : List Char)
    (h1 : (line.head? == some '#') = false)
    (h2 : pyIn (chars "# E:") line = false) :
    failLineStep line lineno errs true =
      FailLineOutcome.unexpected (unexpectedOutputMsg lineno errs) := by
  unfold failLineStep
  simp [h1, h2]

/-- C2, witness instantiating `numpy_C2_amended` at a concrete line. -/
theorem numpy_C2_witness :
    failLineStep (chars "y = f(x)") 7 (chars "7: error: boom\n") true =
      FailLineOutcome.unexpected (unexpectedOutputMsg 7 (chars "7: error: boom\n")) :=
  numpy_C2_amended (chars "y = f(x)") 7 (chars "7: error: boom\n")
    (by decide) (by decide)

/-- C3.  For a line carrying a `# E: <msg>` marker, the per-line `_test_fail`
check (called with the stripped marker and the stripped accumulated checker
text for the line) passes if and only if the accumulated checker text contains
the marker as a substring; on mismatch it raises an `AssertionError` whose
message renders both the expected marker text and the observed checker text. -/
theorem numpy_C3_theorem (expression marker errs : List Char) (lineno : Int) :
    (testFailCheck expression (pyStrip marker) (some (pyStrip errs)) lineno = none ↔
      pyIn (pyStrip marker) (pyStrip errs) = true) ∧
    (pyIn (pyStrip marker) (pyStrip errs) = false →
      testFailCheck expression (pyStrip marker) (some (pyStrip errs)) lineno =
        some (failMsg2R lineno expression (pyStrip errs) (pyStrip marker))) := by
  unfold testFailCheck
  constructor
  · cases h : pyIn (pyStrip marker) (pyStrip errs) <;> simp [h]
  · intro h
    simp [h]

/-- C3, witness instantiating `numpy_C3_theorem` at a concrete matching call
and a concrete mismatching call. -/
theorem numpy_C3_witness :
    testFailCheck (chars "x: int") (pyStrip (chars "incompatible type"))
      (some (pyStrip (chars "3: error: incompatible type found\n"))) 3 = none ∧
    testFailCheck (chars "y: str") (pyStrip (chars "no attribute"))
      (some (pyStrip (chars ""))) 4 =
      some (failMsg2R 4 (chars "y: str") (pyStrip (chars ""))
        (pyStrip (chars "no attribute"))) :=
  ⟨(numpy_C3_theorem (chars "x: int") (chars "incompatible type")
      (chars "3: error: incompatible type found\n") 3).1.mpr (by decide),
   (numpy_C3_theorem (chars "y: str") (chars "no attribute") (chars "") 4).2
     (by decide)⟩

/-- C4, counterexample.  The claim states that placeholder substitution over
reveal comments is total and never raises.  On the fixture contents
`"x  # E: \x7b\x7d"` (a reveal comment consisting of one brace pair with an
empty name), `re.findall` produces the key `""`, the keyword table maps it to
the `<UNRECOGNIZED ...>` fallback, but `comments.format(**kwargs)` reads the
empty field as a positional reference and raises `IndexError`: no replacement
happens. -/
theorem numpy_C4_counterexample :
    parseReveals [] (chars "x  # E: \x7b\x7d") = .error PyExc.indexError ∧
    exOk (parseReveals [] (chars "x  # E: \x7b\x7d")) = false := ⟨rfl, rfl⟩

/-- C4, amended.  For comment strings whose braces all delimit plain format
keys — non-empty, not all digits, and free of braces, `.`, `[`, `!`, `:` and
newlines — substitution is total and never raises: `_parse_reveals` succeeds
and replaces every `\x7bname\x7d` token by the format-table entry when `name`
is present and by `<UNRECOGNIZED FORMAT KEY 'name'>` otherwise.  Outside this
shape `str.format` can raise (see the counterexample). -/
theorem numpy_C4_amended (tbl : List (List Char × List Char)) (contents : List Char)
    (toks : List FTok)
    (h1 : commentsOf contents = renderToks toks)
    (h2 : toksGood toks = true) :
    parseReveals tbl contents =
      .ok (exprsOf contents, pySplitList (chars "/n") (renderSubst tbl toks)) := by
  unfold parseReveals
  rw [h1, formatComments_render h2]

/-- C4, witness instantiating `numpy_C4_amended` on a fixture line whose
comment holds one recognized key. -/
theorem numpy_C4_witness :
    parseReveals (formatDict (chars "numpy.int64") (chars "c_long") [])
      (chars "f(1)  # E: \x7bfloat64\x7d") =
      .ok (exprsOf (chars "f(1)  # E: \x7bfloat64\x7d"),
        pySplitList (chars "/n")
          (renderSubst (formatDict (chars "numpy.int64") (chars "c_long") [])
            [FTok.key (chars "float64")])) :=
  numpy_C4_amended (formatDict (chars "numpy.int64") (chars "c_long") [])
    (chars "f(1)  # E: \x7bfloat64\x7d") [FTok.key (chars "float64")]
    rfl (by decide)

/-- C5.  `test_success` raises an assertion failure if and only if the fixture
path appears as a key of the session output mapping, and the raised message
lists the checker's lines for the file with filename prefixes stripped;
moreover every entry the session parser puts into the mapping carries at least
one output line. -/
theorem numpy_C5_theorem (out : List (List Char × List (List Char)))
    (path : List Char) (stdout : List Char)
    (entry : List Char × List (List Char)) :
    ((testSuccessCheck out path).isSome ↔ (dictGet out path).isSome) ∧
    (∀ lines, dictGet out path = some lines →
      testSuccessCheck out path =
        some (chars "Unexpected mypy output\n\n" ++
          List.intercalate (chars "\n") (lines.map stripFilename))) ∧
    (entry ∈ parseMypyStdout stdout → entry.2 ≠ []) := by
  refine ⟨?_, ?_, ?_⟩
  · unfold testSuccessCheck
    cases h : dictGet out path <;> simp [h]
  · intro lines h
    unfold testSuccessCheck
    rw [h]
  · intro hmem
    exact groupRuns_sndNe _ entry (List.mem_filter.mp hmem).1

/-- C5, witness instantiating `numpy_C5_theorem` at a concrete mapping. -/
theorem numpy_C5_witness :
    testSuccessCheck [(chars "/d/a.py", [chars "/d/a.py:1: error: x"])]
      (chars "/d/a.py") =
      some (chars "Unexpected mypy output\n\n" ++
        List.intercalate (chars "\n")
          ([chars "/d/a.py:1: error: x"].map stripFilename)) :=
  (numpy_C5_theorem [(chars "/d/a.py", [chars "/d/a.py:1: error: x"])]
    (chars "/d/a.py") (chars "") ((chars ""), [])).2.1
    [chars "/d/a.py:1: error: x"] (by decide)

/-- C6.  One `run_mypy` directory iteration aborts the test session
(`pytest.fail`) if and only if the checker's standard error is non-empty or
its exit code is neither 0 nor 1; otherwise the run is handled and its stdout
is parsed into the session mapping entries. -/
theorem numpy_C6_theorem (stdout stderr : List Char) (exitCode : Int) :
    (exOk (runMypyDir stdout stderr exitCode) = false ↔
      (stderr ≠ [] ∨ (exitCode ≠ 0 ∧ exitCode ≠ 1))) ∧
    (stderr = [] → (exitCode = 0 ∨ exitCode = 1) →
      runMypyDir stdout stderr exitCode = .ok (parseMypyStdout stdout)) := by
  constructor
  · cases stderr with
    | cons a t => simp [runMypyDir, exOk]
    | nil =>
      by_cases h2 : exitCode = 0
      · subst h2
        simp [runMypyDir, exOk]
      · by_cases h3 : exitCode = 1
        · subst h3
          simp [runMypyDir, exOk]
        · simp [runMypyDir, exOk, h2, h3]
  · intro h1 h2
    subst h1
    rcases h2 with rfl | rfl <;> simp [runMypyDir, exOk]

/-- C6, witness instantiating `numpy_C6_theorem`: a clean exit-code-1 run is
handled and parsed; a run with non-empty standard error aborts. -/
theorem numpy_C6_witness :
    runMypyDir (chars "/d/a.py:1: error: x\n") (chars "") 1 =
      .ok (parseMypyStdout (chars "/d/a.py:1: error: x\n")) ∧
    exOk (runMypyDir (chars "") (chars "crash") 0) = false :=
  ⟨(numpy_C6_theorem (chars "/d/a.py:1: error: x\n") (chars "") 1).2 rfl
      (Or.inr rfl),
   (numpy_C6_theorem (chars "") (chars "crash") 0).1.mpr
      (Or.inl (by decide))⟩

/-- C7.  For a checker output line attributed to a fail fixture, the
collection step raises `ValueError` exactly when the stripped first line does
not match the `\d+: (error|note): .+$` pattern; for a reveal fixture, the loop
body raises `ValueError` exactly when the stripped line does not match
`\d+: note: .+$` (the non-matching `assert` branch raises `AssertionError`, a
different outcome constructor). -/
theorem numpy_C7_theorem (raw : List Char) :
    (exOk (failLineParse raw) = false ↔
      matchDiagLine [chars "error", chars "note"]
        (firstLine (stripFilename raw)) = none) ∧
    ((∃ m, revealLineParse raw = RevealLineOutcome.valueError m) ↔
      matchDiagLine [chars "note"] (stripFilename raw) = none) := by
  constructor
  · unfold failLineParse
    cases h : matchDiagLine [chars "error", chars "note"]
        (firstLine (stripFilename raw)) <;> simp [h, exOk]
  · unfold revealLineParse
    cases h : matchDiagLine [chars "note"] (stripFilename raw) with
    | none => simp [h]
    | some n =>
      cases hr : pyIn (chars "Revealed type is") (stripFilename raw) <;> simp [h, hr]

/-- C7, witness instantiating `numpy_C7_theorem` at a malformed line. -/
theorem numpy_C7_witness :
    (∃ m, revealLineParse (chars "/d/a.py: bogus output") =
      RevealLineOutcome.valueError m) ∧
    exOk (failLineParse (chars "/d/a.py: bogus output")) = false :=
  ⟨(numpy_C7_theorem (chars "/d/a.py: bogus output")).2.mpr (by decide),
   (numpy_C7_theorem (chars "/d/a.py: bogus output")).1.mpr (by decide)⟩

/-- C8, counterexample.  The claim states that every extended-precision
subclass is declared with the numpy abstract number type parameterized by the
matching bit width as its base — in particular that `uint256`'s base is
`np.unsignedinteger[_256Bit]`, as the alias `Uint256` is.  In the module,
`uint256` is instead declared as `class uint256(uint128)`. -/
theorem numpy_C8_counterexample :
    dictGet extSubclassBases (chars "uint256") =
      some (PyBase.localClass (chars "uint128")) ∧
    specExpectedBase (chars "uint256") = some (PyBase.unsignedinteger 256) ∧
    dictGet extSubclassBases (chars "uint256") ≠ specExpectedBase (chars "uint256") := by
  refine ⟨rfl, rfl, ?_⟩
  decide

/-- C8, amended.  For every extended-precision kind name the module defines
both a type-parameterized alias (whose type is exactly the bit-width-matching
parameterized numpy abstract number type) and an empty subclass declaration;
for every kind except `uint256` and `int256`, the subclass's declared base is
that same parameterized type, while `uint256` is declared with base `uint128`
and `int256` with base `int128`. -/
theorem numpy_C8_amended :
    (extKindAlias.all fun p =>
      decide (dictGet extAliases p.2 = specExpectedBase p.1) &&
      (dictGet extSubclassBases p.1).isSome) = true ∧
    (extKindAlias.all fun p =>
      (p.1 == chars "uint256") || (p.1 == chars "int256") ||
      decide (dictGet extSubclassBases p.1 = specExpectedBase p.1)) = true ∧
    dictGet extSubclassBases (chars "uint256") =
      some (PyBase.localClass (chars "uint128")) ∧
    dictGet extSubclassBases (chars "int256") =
      some (PyBase.localClass (chars "int128")) := by
  refine ⟨?_, ?_, rfl, rfl⟩ <;> decide

/-- C9.  The code evaluated at the claim's scenario: with an existing cache
directory and `NUMPY_TYPING_TEST_CLEAR_CACHE` set to `"0"`, the clearing
condition is still true — `bool("0")` is `True` in Python, since `"0"` is a
non-empty string — so the cache is cleared, contradicting both the claim and
the function's own docstring (`"The cache refresh can be skipped using
NUMPY_TYPING_TEST_CLEAR_CACHE=0"`).  With the variable unset the cache is
cleared, as the claim says. -/
theorem numpy_C9_bug :
    shouldClearCache true (some (chars "0")) = true ∧
    envTruthy (some (chars "0")) = true ∧
    shouldClearCache true none = true ∧
    shouldClearCache true (some (chars "")) = false := ⟨rfl, rfl, rfl, rfl⟩

/-- C10.  In `test_extended_precision`, for a checker diagnostic that parses
(the colon-split has at least three fields, the line-number field parses as an
integer, the fixture file has a line for it, and the kind field strips to
`error` or `note`) whose line number is not a key of `LINENO_MAPPING`, the
unguarded `LINENO_MAPPING[lineno]` lookup raises `KeyError` — not a test
failure, a skip, or a `_test_reveal`/`_test_fail` comparison. -/
theorem numpy_C10_theorem (fmtTbl : List (List Char × List Char))
    (extList : List (List Char)) (exprs : List (List Char)) (raw : List Char)
    (msg0 typ0 linenoStr : List Char) (rest : List (List Char)) (lineno : Int)
    (exprLine : List Char)
    (h1 : (pySplitChar ':' raw).reverse = msg0 :: typ0 :: linenoStr :: rest)
    (h2 : pyIntParse linenoStr = some lineno)
    (h3 : pyIndexGet exprs (lineno - 1) = some exprLine)
    (h4 : memL (pyStrip typ0) [chars "error", chars "note"] = true)
    (h5 : dictGet linenoMapping lineno = none) :
    extStep fmtTbl extList exprs raw = ExtOutcome.keyError lineno := by
  unfold extStep
  rw [h1]
  simp [h2, h3, h4, h5]

/-- C10, witness instantiating `numpy_C10_theorem` at a concrete diagnostic on
line 18 of a 20-line fixture. -/
theorem numpy_C10_witness :
    extStep [] [] (List.replicate 20 (chars "x"))
      (chars "/d/e.pyi:18: error: boom") = ExtOutcome.keyError 18 :=
  numpy_C10_theorem [] [] (List.replicate 20 (chars "x"))
    (chars "/d/e.pyi:18: error: boom") (chars " boom") (chars " error")
    (chars "18") [chars "/d/e.pyi"] 18 (chars "x")
    (by decide) (by decide) (by decide) (by decide) (by decide)

end TypeTest
